import Mathlib

/-!
# gaiaexporter: the poll loop, the fetcher and start-up validation

A shallow embedding of `main.go`.  The program polls two endpoints of a
node (`status`, `net_info`), decodes the JSON bodies into two structs that
live as long as the loop, and publishes three gauges from the structs.

* Go values: `error` is its message, `uint`/`int` are 64 bit wide, a
  `float64` is the rational number it denotes, a `time.Time` is a count of
  nanoseconds since Go's zero time.
* The outside world (what the node answers, what the clock reads) is an
  explicit input of every step.
* Everything the program does that can be observed from outside is
  recorded as a list of `Event`s.
-/

namespace GaiaExporter

/-! ## Machine integers -/

/-- Two's-complement reading of an integer in 64 bits (Go `int64` overflow). -/
def wrapInt64 (x : Int) : Int := (x + 2 ^ 63) % 2 ^ 64 - 2 ^ 63

/-- Reading of an integer modulo `2^64` (conversion to Go `uint`). -/
def wrapUint64 (x : Int) : Nat := (x % 2 ^ 64).toNat

/-! ## float64

A finite `float64` is the rational number it denotes.  Every arithmetic
operation is the exact operation followed by rounding to 53 significant
bits, ties to even.  The exponent range is not modelled: the program only
produces values of magnitude between `2^-30` and `2^64` (or zero). -/

/-- Floor of the binary logarithm, by repeated halving (`fuel` halvings at most). -/
def log2Fuel : Nat → Nat → Nat
  | 0, _ => 0
  | fuel + 1, n => if 2 ≤ n then log2Fuel fuel (n / 2) + 1 else 0

/-- Floor of the binary logarithm of `n` (0 for `n = 0`). -/
def bitLog (n : Nat) : Nat := log2Fuel n n

/-- Numerator and binary exponent `(m, e)` of the float64 nearest to `a / q`:
the result is `m * 2^e` with `m < 2^53 + 1`. -/
def roundParts (a q : Nat) : Nat × Int :=
  let k : Int := (bitLog a : Int) - (bitLog q : Int)
  -- floor (log2 (a / q)) is `k` or `k - 1`
  let l : Int := if q * 2 ^ k.toNat ≤ a * 2 ^ (-k).toNat then k else k - 1
  let e : Int := l - 52
  -- a / (q * 2^e) as a quotient of naturals
  let n := a * 2 ^ (-e).toNat
  let d := q * 2 ^ e.toNat
  let f := n / d
  let r := n % d
  let m := if 2 * r < d then f else if d < 2 * r then f + 1 else if f % 2 = 0 then f else f + 1
  (m, e)

/-- The float64 nearest to `p / q` (for `0 < q`), ties to even. -/
def roundRatio (p : Int) (q : Nat) : ℚ :=
  let me := roundParts p.natAbs q
  mkRat (p.sign * (me.1 : Int) * 2 ^ me.2.toNat) (2 ^ (-me.2).toNat)

/-- Go conversion `float64(x)` of an integer `x`. -/
def float64 (x : Int) : ℚ := roundRatio x 1

/-- Go `x + y` on float64. -/
def fadd (x y : ℚ) : ℚ := roundRatio (x.num * y.den + y.num * x.den) (x.den * y.den)

/-- Go `x / y` on float64 (for `y` other than zero). -/
def fdiv (x y : ℚ) : ℚ := roundRatio (x.num * y.den * y.num.sign) (x.den * y.num.natAbs)

/-! ## package time -/

/-- Go `error`, by its message. -/
abbrev Error := String

/-- An instant (`time.Time` without monotonic reading): nanoseconds since
Go's zero time, 0001-01-01T00:00:00Z.  The zero value of the type is `0`. -/
abbrev Time := Int

/-- Nanosecond count of a `time.Duration` (an `int64`). -/
abbrev Duration := Int

/-- Largest `time.Duration`. -/
def maxDuration : Duration := 2 ^ 63 - 1

/-- Smallest `time.Duration`. -/
def minDuration : Duration := -(2 ^ 63)

/-- `time.Second` in nanoseconds. -/
def Second : Duration := 1000000000

/-- `time.Millisecond` in nanoseconds. -/
def Millisecond : Duration := 1000000

/-- `t.Sub(u)`: the difference `t - u`; when it does not fit a `Duration` the
largest (or smallest) duration is returned. -/
def timeSub (t u : Time) : Duration :=
  if maxDuration < t - u then maxDuration
  else if t - u < minDuration then minDuration
  else t - u

/-- `time.Since(t)` when the clock reads `now`: `time.Now().Sub(t)`. -/
def timeSince (now t : Time) : Duration := timeSub now t

/-- `d.Seconds()`:
`sec := d / Second; nsec := d % Second; return float64(sec) + float64(nsec)/1e9`
(Go integer division truncates towards zero). -/
def Seconds (d : Duration) : ℚ :=
  let sec := Int.tdiv d Second
  let nsec := Int.tmod d Second
  fadd (float64 sec) (fdiv (float64 nsec) 1000000000)

/-! ## The decoded structs (`main.go`, lines 21-133)

Only the fields that `recordMetrics` reads are kept; every other field of
the two structs is decoded and never used. -/

/-- `GaiadStatus.Result.SyncInfo`: the two fields that are read. -/
structure SyncInfo where
  /-- Field `latest_block_height,string` of type `uint`. -/
  LatestBlockHeight : Nat
  /-- Field `latest_block_time` of type `time.Time`. -/
  LatestBlockTime : Time
  deriving DecidableEq, Repr

/-- `GaiadStatus.Result`. -/
structure StatusResult where
  SyncInfo : SyncInfo
  deriving DecidableEq, Repr

/-- `GaiadStatus`. -/
structure GaiadStatus where
  Result : StatusResult
  deriving DecidableEq, Repr

/-- `GaiadNetInfo.Result`: the field that is read. -/
structure NetInfoResult where
  /-- Field `n_peers,string` of type `uint`. -/
  NPeers : Nat
  deriving DecidableEq, Repr

/-- `GaiadNetInfo`. -/
structure GaiadNetInfo where
  Result : NetInfoResult
  deriving DecidableEq, Repr

/-- Zero value of `GaiadStatus` (`var gaia_status GaiadStatus`). -/
def GaiadStatus.zero : GaiadStatus := ⟨⟨⟨0, 0⟩⟩⟩

/-- Zero value of `GaiadNetInfo` (`var gaia_net_info GaiadNetInfo`). -/
def GaiadNetInfo.zero : GaiadNetInfo := ⟨⟨0⟩⟩

/-! ## Response bodies and `json.Unmarshal`

A body is described by what `json.Unmarshal` makes of it.  `Unmarshal`
checks the syntax of the whole input before it writes anything; on valid
input it walks the members of the object, stores each member that fits
the field of the same name, leaves every field without a member as it
was, and reports the first member that did not fit (if any) once it is
done. -/

/-- The members of a JSON-RPC envelope that the decoder stores into fields
read by the program.  `none`: the member is missing (or `null`), the field stays as it
was.  A field tagged `,string` takes a JSON string that holds the decimal
numeral of the number given here. -/
structure Doc where
  /-- Member `result.sync_info.latest_block_height`. -/
  latest_block_height : Option Nat
  /-- Member `result.sync_info.latest_block_time`. -/
  latest_block_time : Option Time
  /-- Member `result.n_peers`. -/
  n_peers : Option Nat
  deriving DecidableEq, Repr

/-- A response body as `json.Unmarshal` sees it. -/
inductive Body where
  /-- Not valid JSON: rejected with the error before the target is written. -/
  | invalid (e : Error)
  /-- Valid JSON.  `mismatch` is the error for a member that does not fit
  its field, when the document has one. -/
  | doc (d : Doc) (mismatch : Option Error)
  deriving DecidableEq, Repr

/-- Decoding a decimal numeral into a `uint` field: a number that does not
fit 64 bits is a type error and the field is left as it was. -/
def storeUint (member : Option Nat) (field : Nat) : Nat × Option Error :=
  match member with
  | none => (field, none)
  | some n =>
    if n < 2 ^ 64 then (n, none)
    else (field, some "json: cannot unmarshal number into Go struct field of type uint")

/-- The first error of two decoding steps. -/
def firstError (a b : Option Error) : Option Error :=
  match a with
  | some e => some e
  | none => b

/-- `json.Unmarshal(body, &gaia_status)`: the struct afterwards and the error
returned. -/
def unmarshalStatus (body : Body) (data : GaiadStatus) : GaiadStatus × Option Error :=
  match body with
  | Body.invalid e => (data, some e)
  | Body.doc d mismatch =>
    let h := storeUint d.latest_block_height data.Result.SyncInfo.LatestBlockHeight
    let t := d.latest_block_time.getD data.Result.SyncInfo.LatestBlockTime
    (⟨⟨⟨h.1, t⟩⟩⟩, firstError mismatch h.2)

/-- `json.Unmarshal(body, &gaia_net_info)`: the struct afterwards and the
error returned. -/
def unmarshalNetInfo (body : Body) (data : GaiadNetInfo) : GaiadNetInfo × Option Error :=
  match body with
  | Body.invalid e => (data, some e)
  | Body.doc d mismatch =>
    let n := storeUint d.n_peers data.Result.NPeers
    (⟨⟨n.1⟩⟩, firstError mismatch n.2)

/-! ## The network -/

/-- What `http.Get` returns for one request. -/
inductive HttpResult where
  /-- The request fails: `http.Get` returns the error. -/
  | failed (e : Error)
  /-- A response arrives; `ioutil.ReadAll` on its body fails or yields the body. -/
  | response (read : Except Error Body)

/-- The network at the time of one request: the result of `http.Get` by URL. -/
abbrev Net := String → HttpResult

/-! ## Observable actions -/

/-- What the program does that can be seen from outside, in order. -/
inductive Event where
  /-- `http.Get(url)`. -/
  | httpGet (url : String)
  /-- `resp.Body.Close()` (deferred in `getData`). -/
  | closeBody
  /-- `log.Error(err)`. -/
  | logError (e : Error)
  /-- `latestBlockHeight.Set(v)`. -/
  | setLatestBlockHeight (v : ℚ)
  /-- `latestBlockAge.Set(v)`. -/
  | setLatestBlockAge (v : ℚ)
  /-- `peersCount.Set(v)`. -/
  | setPeersCount (v : ℚ)
  /-- `log.WithField(field, v).Debug()`. -/
  | logDebug (field : String) (v : ℚ)
  /-- `time.Sleep(d)`. -/
  | sleep (d : Duration)
  deriving DecidableEq, Repr

/-! ## `getData` (lines 150-166) -/

/-- Constant `GAIA_API_HOST`. -/
def GAIA_API_HOST : String := "http://localhost:26657"

/-- `fmt.Sprintf("%s/%s", GAIA_API_HOST, endpoint)`. -/
def requestURL (endpoint : String) : String := GAIA_API_HOST ++ "/" ++ endpoint

/-- Result of one call of `getData`. -/
structure Fetched (T : Type) where
  /-- The target `data` after the call. -/
  data : T
  /-- The returned `err` (`none` is `nil`). -/
  err : Option Error
  /-- What the call did. -/
  events : List Event

/-- `getData(endpoint, &data)`.  `unmarshal` is `json.Unmarshal` at the type
of the target. -/
def getData {T : Type} (unmarshal : Body → T → T × Option Error) (net : Net)
    (endpoint : String) (data : T) : Fetched T :=
  let url := requestURL endpoint
  match net url with
  | HttpResult.failed err => ⟨data, some err, [Event.httpGet url]⟩
  | HttpResult.response read =>
    match read with
    | Except.error err => ⟨data, some err, [Event.httpGet url, Event.closeBody]⟩
    | Except.ok body =>
      match unmarshal body data with
      | (data1, some err) => ⟨data1, some err, [Event.httpGet url, Event.closeBody]⟩
      | (data1, none) => ⟨data1, none, [Event.httpGet url, Event.closeBody]⟩

/-! ## `recordMetrics` (lines 168-195) -/

/-- The three gauges (lines 135-148).  A gauge holds a float64 and starts at 0. -/
structure Gauges where
  latestBlockHeight : ℚ
  latestBlockAge : ℚ
  peersCount : ℚ
  deriving DecidableEq, Repr

/-- State of the poll loop: the two structs declared before the loop
(lines 170-171) and the gauges. -/
structure Poller where
  gaia_status : GaiadStatus
  gaia_net_info : GaiadNetInfo
  gauges : Gauges
  deriving DecidableEq, Repr

/-- State when the goroutine starts. -/
def Poller.init : Poller := ⟨GaiadStatus.zero, GaiadNetInfo.zero, ⟨0, 0, 0⟩⟩

/-- The outside world during one iteration of the loop. -/
structure Tick where
  /-- The network when `status` is requested. -/
  statusNet : Net
  /-- The network when `net_info` is requested. -/
  netInfoNet : Net
  /-- The clock reading taken by `time.Since`. -/
  now : Time

/-- `log.Error(err)` when `err != nil`. -/
def logIfError (err : Option Error) : List Event :=
  match err with
  | some e => [Event.logError e]
  | none => []

/-- `time.Duration(interval) * time.Millisecond` for `interval` of type `uint`. -/
def sleepDuration (interval : Nat) : Duration :=
  wrapInt64 (wrapInt64 (interval : Int) * Millisecond)

/-- One iteration of the `for` loop of `recordMetrics` (lines 174-191). -/
def iteration (interval : Nat) (w : Tick) (p : Poller) : Poller × List Event :=
  let r1 := getData unmarshalStatus w.statusNet "status" p.gaia_status
  let r2 := getData unmarshalNetInfo w.netInfoNet "net_info" p.gaia_net_info
  let height := float64 r1.data.Result.SyncInfo.LatestBlockHeight
  let age := Seconds (timeSince w.now r1.data.Result.SyncInfo.LatestBlockTime)
  let peers := float64 r2.data.Result.NPeers
  (⟨r1.data, r2.data, ⟨height, age, peers⟩⟩,
   r1.events ++ logIfError r1.err ++ r2.events ++ logIfError r2.err ++
   [Event.setLatestBlockHeight height, Event.logDebug "latest_block_height" height,
    Event.setLatestBlockAge age, Event.logDebug "latest_block_age" age,
    Event.setPeersCount peers, Event.logDebug "peer_count" peers,
    Event.sleep (sleepDuration interval)])

/-- The loop run over the given ticks, one iteration each, from state `p`. -/
def runLoop (interval : Nat) : List Tick → Poller → Poller × List Event
  | [], p => (p, [])
  | w :: ws, p =>
    let r := iteration interval w p
    let rest := runLoop interval ws r.1
    (rest.1, r.2 ++ rest.2)

/-- `recordMetrics(interval)`: the goroutine, observed over its first
iterations. -/
def recordMetrics (interval : Nat) (ws : List Tick) : Poller × List Event :=
  runLoop interval ws Poller.init

/-- States the poll loop can be in at the top of an iteration. -/
def Reachable (p : Poller) : Prop :=
  ∃ (interval : Nat) (ws : List Tick), (recordMetrics interval ws).1 = p

/-! ## `main` (lines 197-225) -/

/-- What `main` does, in order. -/
inductive Startup (Level : Type) where
  /-- `log.Fatal(msg)`: the message is logged and the process exits with status 1. -/
  | fatal (msg : String)
  /-- `logrus.SetLevel(lvl)`. -/
  | setLevel (lvl : Level)
  /-- `recordMetrics(interval)`: the poll loop is started. -/
  | recordMetrics (interval : Nat)
  /-- `http.Handle(pattern, promhttp.Handler())`. -/
  | handle (pattern : String)
  /-- `http.ListenAndServe(addr, nil)`: the listener is bound. -/
  | listenAndServe (addr : String)
  deriving DecidableEq, Repr

/-- `main` after `flag.Parse()` has set `port`, `interval` and `logLevel`, up
to the call of `http.ListenAndServe`.  `parseLevel` is `logrus.ParseLevel`.
The interval check is `interval < 100` (line 211): the value 100 passes, although
the message logged beside it says the interval must be longer than 100. -/
def main {Level : Type} (parseLevel : String → Except Error Level)
    (port interval : Int) (logLevel : String) : List (Startup Level) :=
  if port > 65535 ∨ port < 0 then
    [Startup.fatal "Network port MUST be between 0 and 65535"]
  else if interval < 100 then
    [Startup.fatal "Scraping interval MUST be longer than 100 miliseconds"]
  else
    match parseLevel logLevel with
    | Except.error err => [Startup.fatal err]
    | Except.ok lvl =>
      [Startup.setLevel lvl,
       Startup.recordMetrics (wrapUint64 interval),
       Startup.handle "/metrics",
       Startup.listenAndServe (":" ++ toString port)]

/-! ## Outcomes of a fetch -/

/-- The validation of `main` accepts `port` and `interval`. -/
def ValidFlags (port interval : Int) : Prop := 0 ≤ port ∧ port ≤ 65535 ∧ 100 ≤ interval

/-- The request for `endpoint` fails at the network: `http.Get` returns an
error, or reading the body of the response does. -/
def NetworkFailure (net : Net) (endpoint : String) : Prop :=
  ∃ e, net (requestURL endpoint) = HttpResult.failed e ∨
    net (requestURL endpoint) = HttpResult.response (Except.error e)

/-- The request for `endpoint` fails before `json.Unmarshal` writes to the
target: a network failure, or a body that is not valid JSON. -/
def NoWrite (net : Net) (endpoint : String) : Prop :=
  NetworkFailure net endpoint ∨
    ∃ e, net (requestURL endpoint) = HttpResult.response (Except.ok (Body.invalid e))

/-- The call `getData("status", &gaia_status)` of an iteration (line 174). -/
def statusFetch (w : Tick) (p : Poller) : Fetched GaiadStatus :=
  getData unmarshalStatus w.statusNet "status" p.gaia_status

/-- The call `getData("net_info", &gaia_net_info)` of an iteration (line 177). -/
def netInfoFetch (w : Tick) (p : Poller) : Fetched GaiadNetInfo :=
  getData unmarshalNetInfo w.netInfoNet "net_info" p.gaia_net_info

/-- The gauges `latest_block_height` and `peers_count` hold the conversion of
the fields of the two structs. -/
def GaugesFollowStructs (p : Poller) : Prop :=
  p.gauges.latestBlockHeight = float64 p.gaia_status.Result.SyncInfo.LatestBlockHeight ∧
  p.gauges.peersCount = float64 p.gaia_net_info.Result.NPeers

/-- Whether an event is an `http.Get`. -/
def Event.isHttpGet : Event → Bool
  | Event.httpGet _ => true
  | _ => false

/-- Whether an event is a `Set` on `latest_block_height`. -/
def Event.isSetLatestBlockHeight : Event → Bool
  | Event.setLatestBlockHeight _ => true
  | _ => false

/-- Whether an event is a `Set` on `latest_block_age`. -/
def Event.isSetLatestBlockAge : Event → Bool
  | Event.setLatestBlockAge _ => true
  | _ => false

/-- Whether an event is a `Set` on `peers_count`. -/
def Event.isSetPeersCount : Event → Bool
  | Event.setPeersCount _ => true
  | _ => false

/-! ## Sample worlds -/

/-- A `logrus.ParseLevel` that knows the level `info` only. -/
def parseLevelInfo (s : String) : Except Error Nat :=
  if s = "info" then Except.ok 4 else Except.error ("not a valid logrus Level: " ++ s)

/-- The node is not listening: every request is refused. -/
def netDown : Net := fun _ =>
  HttpResult.failed "dial tcp 127.0.0.1:26657: connect: connection refused"

/-- The node answers every request with `body`. -/
def netServing (body : Body) : Net := fun _ => HttpResult.response (Except.ok body)

/-- The instant 2026-11-04T00:00:00Z. -/
def sampleNow : Time := 63929347200000000000

/-- An iteration during which the node is down. -/
def tickDown (now : Time) : Tick := ⟨netDown, netDown, now⟩

/-- An iteration during which the node answers `status` with `status` and
`net_info` with `netInfo`. -/
def tickServing (status netInfo : Body) (now : Time) : Tick :=
  ⟨netServing status, netServing netInfo, now⟩

/-- A well-formed `status` body with the given height and block time. -/
def statusBody (height : Nat) (blockTime : Time) : Body :=
  Body.doc ⟨some height, some blockTime, none⟩ none

/-- A well-formed `net_info` body with the given peer count. -/
def netInfoBody (peers : Nat) : Body := Body.doc ⟨none, none, some peers⟩ none

/-- A well-formed envelope that carries none of the three members, such as
`{"jsonrpc":"2.0","id":-1,"result":{}}`. -/
def emptyBody : Body := Body.doc ⟨none, none, none⟩ none

/-- A body such as `{"id":"x","result":{"sync_info":{"latest_block_height":"7"}}}`:
the member `id` is a string where the field is an `int`, the height is stored. -/
def mistypedBody : Body :=
  Body.doc ⟨some 7, none, none⟩
    (some "json: cannot unmarshal string into Go struct field GaiadStatus.id of type int")

/-! ## float64: sign and exactness -/

/-- With enough fuel, `log2Fuel` brackets its argument between two powers of two. -/
theorem log2Fuel_spec : ∀ (fuel n : Nat), 1 ≤ n → n ≤ fuel →
    2 ^ log2Fuel fuel n ≤ n ∧ n < 2 ^ (log2Fuel fuel n + 1)
  | 0, n, h1, h2 => by omega
  | fuel + 1, n, h1, h2 => by
    unfold log2Fuel
    by_cases h : 2 ≤ n
    · have ih := log2Fuel_spec fuel (n / 2) (by omega) (by omega)
      rw [if_pos h]
      constructor
      · rw [pow_succ]; omega
      · rw [pow_succ]; omega
    · rw [if_neg h]
      simp
      omega

/-- `bitLog n` is the floor of the binary logarithm of `n`. -/
theorem bitLog_spec (n : Nat) (h : 1 ≤ n) : 2 ^ bitLog n ≤ n ∧ n < 2 ^ (bitLog n + 1) :=
  log2Fuel_spec n n h (le_refl n)

/-- Rounding a positive ratio gives a positive numerator (there is no underflow). -/
theorem roundParts_pos (a q : Nat) (ha : 0 < a) (hq : 0 < q) : 0 < (roundParts a q).1 := by
  obtain ⟨ha1, ha2⟩ := bitLog_spec a ha
  obtain ⟨hq1, hq2⟩ := bitLog_spec q hq
  unfold roundParts
  simp only
  generalize hk : ((bitLog a : Int) - (bitLog q : Int)) = k
  generalize hl : (if q * 2 ^ k.toNat ≤ a * 2 ^ (-k).toNat then k else k - 1) = l
  have hlk : l ≤ k := by rw [← hl]; split <;> omega
  generalize he : l - 52 = e
  have hd : q * 2 ^ e.toNat ≤ a * 2 ^ (-e).toNat := by
    rcases le_total 0 e with h0 | h0
    · have e1 : (-e).toNat = 0 := by omega
      rw [e1, pow_zero, mul_one]
      have e2 : e.toNat + bitLog q + 1 ≤ bitLog a := by omega
      calc q * 2 ^ e.toNat ≤ 2 ^ (bitLog q + 1) * 2 ^ e.toNat := Nat.mul_le_mul_right _ hq2.le
        _ = 2 ^ (bitLog q + 1 + e.toNat) := (pow_add 2 _ _).symm
        _ ≤ 2 ^ bitLog a := Nat.pow_le_pow_right (by norm_num) (by omega)
        _ ≤ a := ha1
    · have e1 : e.toNat = 0 := by omega
      rw [e1, pow_zero, mul_one]
      have e2 : bitLog q + 1 ≤ bitLog a + (-e).toNat := by omega
      calc q ≤ 2 ^ (bitLog q + 1) := hq2.le
        _ ≤ 2 ^ (bitLog a + (-e).toNat) := Nat.pow_le_pow_right (by norm_num) e2
        _ = 2 ^ bitLog a * 2 ^ (-e).toNat := pow_add 2 _ _
        _ ≤ a * 2 ^ (-e).toNat := Nat.mul_le_mul_right _ ha1
  have hdpos : 0 < q * 2 ^ e.toNat := Nat.mul_pos hq (by positivity)
  have hf : 1 ≤ a * 2 ^ (-e).toNat / (q * 2 ^ e.toNat) := (Nat.one_le_div_iff hdpos).mpr hd
  split
  · omega
  · split
    · omega
    · split <;> omega

/-- Zero rounds to the numerator zero. -/
theorem roundParts_zero (q : Nat) : (roundParts 0 q).1 = 0 := by
  unfold roundParts
  simp

/-- The value of `roundRatio` as a quotient. -/
theorem roundRatio_eq_div (p : Int) (q : Nat) :
    roundRatio p q =
      ((p.sign * ((roundParts p.natAbs q).1 : Int) * 2 ^ (roundParts p.natAbs q).2.toNat : Int) : ℚ) /
        ((2 ^ (-(roundParts p.natAbs q).2).toNat : Nat) : ℚ) := by
  unfold roundRatio
  simp only
  rw [Rat.mkRat_eq_div]

/-- Rounding keeps a negative ratio negative. -/
theorem roundRatio_neg (p : Int) (q : Nat) (hp : p < 0) (hq : 0 < q) : roundRatio p q < 0 := by
  rw [roundRatio_eq_div]
  have hm := roundParts_pos p.natAbs q (by omega) hq
  apply div_neg_of_neg_of_pos
  · have hs : p.sign = -1 := Int.sign_eq_neg_one_of_neg hp
    rw [hs]
    have : (0 : Int) < ((roundParts p.natAbs q).1 : Int) * 2 ^ (roundParts p.natAbs q).2.toNat := by
      positivity
    have h2 : (-1 * ((roundParts p.natAbs q).1 : Int) * 2 ^ (roundParts p.natAbs q).2.toNat : Int) < 0 := by
      linarith
    exact_mod_cast h2
  · positivity

/-- Rounding keeps a positive ratio positive. -/
theorem roundRatio_pos (p : Int) (q : Nat) (hp : 0 < p) (hq : 0 < q) : 0 < roundRatio p q := by
  rw [roundRatio_eq_div]
  have hm := roundParts_pos p.natAbs q (by omega) hq
  apply div_pos
  · have hs : p.sign = 1 := Int.sign_eq_one_of_pos hp
    rw [hs]
    have : (0 : Int) < 1 * ((roundParts p.natAbs q).1 : Int) * 2 ^ (roundParts p.natAbs q).2.toNat := by
      positivity
    exact_mod_cast this
  · positivity

/-- Zero rounds to zero. -/
theorem roundRatio_zero (q : Nat) : roundRatio 0 q = 0 := by
  rw [roundRatio_eq_div]
  simp

/-- Rounding keeps a ratio that is at most zero at most zero. -/
theorem roundRatio_nonpos (p : Int) (q : Nat) (hp : p ≤ 0) (hq : 0 < q) : roundRatio p q ≤ 0 := by
  rcases lt_or_eq_of_le hp with h | h
  · exact (roundRatio_neg p q h hq).le
  · rw [h, roundRatio_zero]

/-- A rational is negative exactly when its numerator is. -/
theorem rat_num_neg_iff (x : ℚ) : x.num < 0 ↔ x < 0 := by
  rw [← not_le, ← not_le, Rat.num_nonneg]

/-- A rational that is at most zero has a numerator that is at most zero. -/
theorem rat_num_nonpos (x : ℚ) (h : x ≤ 0) : x.num ≤ 0 := by
  rcases lt_or_eq_of_le h with h | h
  · exact ((rat_num_neg_iff x).mpr h).le
  · rw [h]; simp

/-- The float64 sum of two numbers that are at most zero, one of them negative, is negative. -/
theorem fadd_neg (x y : ℚ) (hx : x ≤ 0) (hy : y ≤ 0) (h : x < 0 ∨ y < 0) : fadd x y < 0 := by
  unfold fadd
  have hxd : (0 : Int) < x.den := by exact_mod_cast x.den_pos
  have hyd : (0 : Int) < y.den := by exact_mod_cast y.den_pos
  have hxn := rat_num_nonpos x hx
  have hyn := rat_num_nonpos y hy
  apply roundRatio_neg
  · rcases h with h | h
    · have := (rat_num_neg_iff x).mpr h
      nlinarith [mul_nonpos_of_nonpos_of_nonneg hyn hxd.le, mul_neg_of_neg_of_pos this hyd]
    · have := (rat_num_neg_iff y).mpr h
      nlinarith [mul_nonpos_of_nonpos_of_nonneg hxn hyd.le, mul_neg_of_neg_of_pos this hxd]
  · exact Nat.mul_pos x.den_pos y.den_pos

/-- Division by the constant `1e9`. -/
theorem fdiv_billion (x : ℚ) : fdiv x 1000000000 = roundRatio x.num (x.den * 1000000000) := by
  unfold fdiv
  have hs : Int.sign 1000000000 = 1 := by decide
  simp [hs]

/-- Truncated quotient and remainder of a negative duration by `time.Second`. -/
theorem tdiv_tmod_of_neg (d : Int) (hd : d < 0) :
    Int.tdiv d 1000000000 ≤ 0 ∧ Int.tmod d 1000000000 ≤ 0 ∧
      (Int.tdiv d 1000000000 < 0 ∨ Int.tmod d 1000000000 < 0) := by
  have hs : Int.tdiv d 1000000000 = -((-d) / 1000000000) := by
    have h := Int.neg_tdiv (-d) 1000000000
    rw [neg_neg] at h
    rw [h, Int.tdiv_eq_ediv (by omega) (by norm_num)]
  have hm := Int.tdiv_add_tmod d 1000000000
  omega

/-- `d.Seconds()` is negative for every negative duration `d`. -/
theorem Seconds_neg (d : Duration) (hd : d < 0) : Seconds d < 0 := by
  obtain ⟨h1, h2, h3⟩ := tdiv_tmod_of_neg d hd
  unfold Seconds Second
  simp only
  rw [fdiv_billion]
  have hx : float64 (Int.tdiv d 1000000000) ≤ 0 := roundRatio_nonpos _ 1 h1 (by norm_num)
  have hy0 : float64 (Int.tmod d 1000000000) ≤ 0 := roundRatio_nonpos _ 1 h2 (by norm_num)
  have hq : 0 < (float64 (Int.tmod d 1000000000)).den * 1000000000 :=
    Nat.mul_pos (Rat.den_pos _) (by norm_num)
  have hy : roundRatio (float64 (Int.tmod d 1000000000)).num
      ((float64 (Int.tmod d 1000000000)).den * 1000000000) ≤ 0 :=
    roundRatio_nonpos _ _ (rat_num_nonpos _ hy0) hq
  apply fadd_neg _ _ hx hy
  rcases h3 with h | h
  · exact Or.inl (roundRatio_neg _ 1 h (by norm_num))
  · right
    apply roundRatio_neg _ _ _ hq
    exact (rat_num_neg_iff _).mpr (roundRatio_neg _ 1 h (by norm_num))

/-- A number below `2^k` has binary logarithm below `k`. -/
theorem bitLog_lt (n k : Nat) (h1 : 1 ≤ n) (h : n < 2 ^ k) : bitLog n < k := by
  by_contra hc
  have := (bitLog_spec n h1).1
  have h3 : 2 ^ k ≤ 2 ^ bitLog n := Nat.pow_le_pow_right (by norm_num) (by omega)
  omega

/-- Below `2^53` an integer is its own rounding: the parts. -/
theorem roundParts_small (n : Nat) (h1 : 1 ≤ n) (h2 : n < 2 ^ 53) :
    roundParts n 1 = (n * 2 ^ (52 - bitLog n), (bitLog n : Int) - 52) := by
  have hb := bitLog_lt n 53 h1 h2
  have hs := (bitLog_spec n h1).1
  have hb1 : bitLog 1 = 0 := by decide
  unfold roundParts
  simp only [hb1]
  have k1 : (((bitLog n : Int) - ((0 : Nat) : Int))).toNat = bitLog n := by omega
  have k2 : (-((bitLog n : Int) - ((0 : Nat) : Int))).toNat = 0 := by omega
  rw [k1, k2]
  have hc : 1 * 2 ^ bitLog n ≤ n * 2 ^ 0 := by omega
  rw [if_pos hc]
  have e1 : (((bitLog n : Int) - ((0 : Nat) : Int)) - 52).toNat = 0 := by omega
  have e2 : (-(((bitLog n : Int) - ((0 : Nat) : Int)) - 52)).toNat = 52 - bitLog n := by omega
  rw [e1, e2]
  simp [Nat.mod_one]

/-- `float64(n)` is exactly `n` for every `n ≤ 2^53`. -/
theorem float64_exact (n : Nat) (h : n ≤ 2 ^ 53) : float64 (n : Int) = (n : ℚ) := by
  rcases Nat.eq_zero_or_pos n with h0 | h0
  · subst h0
    decide
  rcases Nat.lt_or_ge n (2 ^ 53) with h2 | h2
  · unfold float64
    rw [roundRatio_eq_div]
    have hn : ((n : Int)).natAbs = n := Int.natAbs_ofNat n
    have hsg : ((n : Int)).sign = 1 := Int.sign_eq_one_of_pos (by omega)
    rw [hn, hsg, roundParts_small n h0 h2]
    simp only
    have e1 : ((bitLog n : Int) - 52).toNat = 0 := by
      have := bitLog_lt n 53 h0 h2
      omega
    have e2 : (-((bitLog n : Int) - 52)).toNat = 52 - bitLog n := by omega
    rw [e1, e2]
    push_cast
    field_simp
  · have : n = 2 ^ 53 := by omega
    subst this
    decide

/-! ## Start-up -/

/-- C6: given a log level that `logrus.ParseLevel` accepts, `main` starts the
poll loop (and then binds the listener) exactly when `0 ≤ port ≤ 65535` and
`100 ≤ interval`; for every other port or interval the only thing it does is one
`log.Fatal`, so the process exits before `recordMetrics` and before
`http.ListenAndServe`. -/
theorem main_validation {Level : Type} (parseLevel : String → Except Error Level)
    (port interval : Int) (logLevel : String) (lvl : Level)
    (hl : parseLevel logLevel = Except.ok lvl) :
    (ValidFlags port interval →
      main parseLevel port interval logLevel =
        [Startup.setLevel lvl, Startup.recordMetrics (wrapUint64 interval),
         Startup.handle "/metrics", Startup.listenAndServe (":" ++ toString port)]) ∧
    (¬ ValidFlags port interval →
      ∃ msg, main parseLevel port interval logLevel = [Startup.fatal msg]) ∧
    ((∃ n, Startup.recordMetrics n ∈ main parseLevel port interval logLevel) ↔
      ValidFlags port interval) := by
  unfold ValidFlags
  by_cases hp : port > 65535 ∨ port < 0
  · have hnot : ¬ (0 ≤ port ∧ port ≤ 65535 ∧ 100 ≤ interval) := by omega
    have hm : main parseLevel port interval logLevel =
        [Startup.fatal "Network port MUST be between 0 and 65535"] := by
      simp [main, hp]
    refine ⟨fun h => absurd h hnot, fun _ => ⟨_, hm⟩, ?_⟩
    rw [hm]
    simp [hnot]
  · by_cases hi : interval < 100
    · have hnot : ¬ (0 ≤ port ∧ port ≤ 65535 ∧ 100 ≤ interval) := by omega
      have hm : main parseLevel port interval logLevel =
          [Startup.fatal "Scraping interval MUST be longer than 100 miliseconds"] := by
        simp [main, hp, hi]
      refine ⟨fun h => absurd h hnot, fun _ => ⟨_, hm⟩, ?_⟩
      rw [hm]
      simp [hnot]
    · have hok : 0 ≤ port ∧ port ≤ 65535 ∧ 100 ≤ interval := by omega
      have hm : main parseLevel port interval logLevel =
          [Startup.setLevel lvl, Startup.recordMetrics (wrapUint64 interval),
           Startup.handle "/metrics", Startup.listenAndServe (":" ++ toString port)] := by
        simp [main, hp, hi, hl]
      refine ⟨fun _ => hm, fun h => absurd hok h, ?_⟩
      rw [hm]
      simp [hok]

/-- C6 at the default flags `-p 2112 -i 1000 -l info`. -/
theorem main_validation_witness :
    parseLevelInfo "info" = Except.ok 4 ∧
    ((ValidFlags 2112 1000 →
      main parseLevelInfo 2112 1000 "info" =
        [Startup.setLevel 4, Startup.recordMetrics (wrapUint64 1000),
         Startup.handle "/metrics", Startup.listenAndServe (":" ++ toString (2112 : Int))]) ∧
    (¬ ValidFlags 2112 1000 →
      ∃ msg, main parseLevelInfo 2112 1000 "info" = [Startup.fatal msg]) ∧
    ((∃ n, Startup.recordMetrics n ∈ main parseLevelInfo 2112 1000 "info") ↔
      ValidFlags 2112 1000)) :=
  ⟨rfl, main_validation parseLevelInfo 2112 1000 "info" 4 rfl⟩

/-! ## The sleep between two iterations -/

/-- C10, refuted at `interval = 9223372036855`: the flag passes the validation of
`main` and fits a signed 64-bit `int`, `uint(interval)` keeps its value, but
`time.Duration(interval) * time.Millisecond` wraps around to a negative duration. -/
theorem sleepDuration_wraps :
    ValidFlags 2112 9223372036855 ∧ (9223372036855 : Int) < 2 ^ 63 ∧
    Startup.recordMetrics 9223372036855 ∈ main parseLevelInfo 2112 9223372036855 "info" ∧
    wrapUint64 9223372036855 = 9223372036855 ∧
    sleepDuration (wrapUint64 9223372036855) = -9223372036854551616 ∧
    sleepDuration (wrapUint64 9223372036855) ≠ 9223372036855 * Millisecond ∧
    ¬ 0 < sleepDuration (wrapUint64 9223372036855) := by
  refine ⟨by unfold ValidFlags; decide, by decide, by decide, by decide, by decide, by decide,
    by decide⟩

/-- C10 as amended: for every interval with `100 ≤ interval ≤ 9223372036854`,
`uint(interval)` keeps the value and the loop sleeps exactly `interval`
milliseconds, a strictly positive duration. -/
theorem sleepDuration_exact (interval : Int) (hlo : 100 ≤ interval)
    (hhi : interval ≤ 9223372036854) :
    (wrapUint64 interval : Int) = interval ∧
    sleepDuration (wrapUint64 interval) = interval * Millisecond ∧
    0 < sleepDuration (wrapUint64 interval) := by
  have hmod : interval % 2 ^ 64 = interval := Int.emod_eq_of_lt (by omega) (by omega)
  have hu : (wrapUint64 interval : Int) = interval := by
    unfold wrapUint64
    rw [hmod]
    exact Int.toNat_of_nonneg (by omega)
  have hs : sleepDuration (wrapUint64 interval) = interval * Millisecond := by
    unfold sleepDuration wrapInt64 Millisecond Duration
    rw [hu]
    omega
  refine ⟨hu, hs, ?_⟩
  rw [hs]
  unfold Millisecond Duration
  omega

/-- C10 as amended, at the default interval of 1000 ms. -/
theorem sleepDuration_exact_witness :
    (100 : Int) ≤ 1000 ∧ (1000 : Int) ≤ 9223372036854 ∧
    ((wrapUint64 1000 : Int) = 1000 ∧
    sleepDuration (wrapUint64 1000) = 1000 * Millisecond ∧
    0 < sleepDuration (wrapUint64 1000)) :=
  ⟨by decide, by decide, sleepDuration_exact 1000 (by decide) (by decide)⟩

/-! ## The fetcher -/

/-- C8: `getData` issues exactly one `http.Get`, to `GAIA_API_HOST`, `/` and the
endpoint; when the request fails it returns that error and leaves the target
alone; otherwise when reading the body fails it returns that error and leaves
the target alone; otherwise it returns what `json.Unmarshal` returns and the
target is what `json.Unmarshal` made of it.  So the error is non-nil exactly
when one of the three steps fails, and it is the error of the first one that
does. -/
theorem getData_contract {T : Type} (unmarshal : Body → T → T × Option Error) (net : Net)
    (endpoint : String) (data : T) :
    (getData unmarshal net endpoint data).events.filter Event.isHttpGet =
        [Event.httpGet (GAIA_API_HOST ++ "/" ++ endpoint)] ∧
    (∀ e, net (GAIA_API_HOST ++ "/" ++ endpoint) = HttpResult.failed e →
      (getData unmarshal net endpoint data).err = some e ∧
      (getData unmarshal net endpoint data).data = data) ∧
    (∀ e, net (GAIA_API_HOST ++ "/" ++ endpoint) = HttpResult.response (Except.error e) →
      (getData unmarshal net endpoint data).err = some e ∧
      (getData unmarshal net endpoint data).data = data) ∧
    (∀ body, net (GAIA_API_HOST ++ "/" ++ endpoint) = HttpResult.response (Except.ok body) →
      (getData unmarshal net endpoint data).err = (unmarshal body data).2 ∧
      (getData unmarshal net endpoint data).data = (unmarshal body data).1) ∧
    ((getData unmarshal net endpoint data).err ≠ none ↔
      ((∃ e, net (GAIA_API_HOST ++ "/" ++ endpoint) = HttpResult.failed e) ∨
       (∃ e, net (GAIA_API_HOST ++ "/" ++ endpoint) = HttpResult.response (Except.error e)) ∨
       (∃ body, net (GAIA_API_HOST ++ "/" ++ endpoint) = HttpResult.response (Except.ok body) ∧
          (unmarshal body data).2 ≠ none))) := by
  have hurl : requestURL endpoint = GAIA_API_HOST ++ "/" ++ endpoint := rfl
  rw [← hurl]
  cases hn : net (requestURL endpoint) with
  | failed e => simp [getData, hn, Event.isHttpGet]
  | response read =>
    cases read with
    | error e => simp [getData, hn, Event.isHttpGet]
    | ok body =>
      cases hu : unmarshal body data with
      | mk d1 oe =>
        cases oe with
        | none => simp [getData, hn, Event.isHttpGet, hu]
        | some e => simp [getData, hn, Event.isHttpGet, hu]

/-! ## The poll loop: what a failed fetch leaves behind -/

/-- A request that fails at the network leaves the target of `getData` as it was
and makes it return an error, whatever the decoder. -/
theorem getData_networkFailure {T : Type} (unmarshal : Body → T → T × Option Error)
    (net : Net) (endpoint : String) (data : T) (h : NetworkFailure net endpoint) :
    (getData unmarshal net endpoint data).data = data ∧
    (getData unmarshal net endpoint data).err ≠ none := by
  obtain ⟨e, he | he⟩ := h
  · simp [getData, he]
  · simp [getData, he]

/-- A `status` request that fails before the decoder writes leaves `gaia_status`
as it was and makes `getData` return an error. -/
theorem getData_status_noWrite (net : Net) (data : GaiadStatus) (h : NoWrite net "status") :
    (getData unmarshalStatus net "status" data).data = data ∧
    (getData unmarshalStatus net "status" data).err ≠ none := by
  rcases h with h | ⟨e, he⟩
  · exact getData_networkFailure unmarshalStatus net "status" data h
  · simp [getData, he, unmarshalStatus]

/-- A `net_info` request that fails before the decoder writes leaves
`gaia_net_info` as it was and makes `getData` return an error. -/
theorem getData_netInfo_noWrite (net : Net) (data : GaiadNetInfo)
    (h : NoWrite net "net_info") :
    (getData unmarshalNetInfo net "net_info" data).data = data ∧
    (getData unmarshalNetInfo net "net_info" data).err ≠ none := by
  rcases h with h | ⟨e, he⟩
  · exact getData_networkFailure unmarshalNetInfo net "net_info" data h
  · simp [getData, he, unmarshalNetInfo]

/-- After an iteration the gauges hold the conversion of the struct fields. -/
theorem iteration_gaugesFollow (interval : Nat) (w : Tick) (p : Poller) :
    GaugesFollowStructs (iteration interval w p).1 :=
  ⟨rfl, rfl⟩

/-- The loop keeps the gauges in step with the structs. -/
theorem runLoop_gaugesFollow (interval : Nat) :
    ∀ (ws : List Tick) (p : Poller), GaugesFollowStructs p →
      GaugesFollowStructs (runLoop interval ws p).1
  | [], _, h => h
  | w :: ws, p, _h =>
    runLoop_gaugesFollow interval ws (iteration interval w p).1
      (iteration_gaugesFollow interval w p)

/-- In every reachable state the gauges are in step with the structs. -/
theorem reachable_gaugesFollow (p : Poller) (h : Reachable p) : GaugesFollowStructs p := by
  obtain ⟨interval, ws, rfl⟩ := h
  exact runLoop_gaugesFollow interval ws Poller.init ⟨by decide, by decide⟩

/-- The start state is reachable. -/
theorem reachable_init : Reachable Poller.init := ⟨0, [], rfl⟩

/-- The state after any number of iterations is reachable. -/
theorem reachable_recordMetrics (interval : Nat) (ws : List Tick) :
    Reachable (recordMetrics interval ws).1 := ⟨interval, ws, rfl⟩

/-- While every `status` request fails before the decoder writes, `gaia_status`
stays as it was. -/
theorem runLoop_status_noWrite (interval : Nat) :
    ∀ (ws : List Tick) (p : Poller), (∀ t ∈ ws, NoWrite t.statusNet "status") →
      (runLoop interval ws p).1.gaia_status = p.gaia_status
  | [], _, _ => rfl
  | w :: ws, p, h => by
    have h1 := runLoop_status_noWrite interval ws (iteration interval w p).1
      (fun t ht => h t (List.mem_cons_of_mem _ ht))
    have h2 := (getData_status_noWrite w.statusNet p.gaia_status
      (h w (List.mem_cons_self _ _))).1
    show (runLoop interval ws (iteration interval w p).1).1.gaia_status = p.gaia_status
    rw [h1]
    exact h2

/-- Events of `getData` are the request and the closing of the body: a filter
that rejects both rejects them all. -/
theorem getData_events_filter {T : Type} (unmarshal : Body → T → T × Option Error) (net : Net)
    (endpoint : String) (data : T) (f : Event → Bool)
    (h1 : ∀ url, f (Event.httpGet url) = false) (h2 : f Event.closeBody = false) :
    (getData unmarshal net endpoint data).events.filter f = [] := by
  unfold getData
  simp only
  split
  · simp [h1]
  · split
    · simp [h1, h2]
    · split <;> simp [h1, h2]

/-- Events of the error log: a filter that rejects `log.Error` rejects them all. -/
theorem logIfError_filter (err : Option Error) (f : Event → Bool)
    (h : ∀ e, f (Event.logError e) = false) : (logIfError err).filter f = [] := by
  cases err <;> simp [logIfError, h]

/-- Every call of `getData` issues its request. -/
theorem getData_httpGet_mem {T : Type} (unmarshal : Body → T → T × Option Error) (net : Net)
    (endpoint : String) (data : T) :
    Event.httpGet (requestURL endpoint) ∈ (getData unmarshal net endpoint data).events := by
  unfold getData
  simp only
  split
  · simp
  · split
    · simp
    · split <;> simp

/-- The gauges after an iteration, from the structs after the two fetches. -/
theorem iteration_gauges (interval : Nat) (w : Tick) (p : Poller) :
    (iteration interval w p).1.gauges =
      ⟨float64 (statusFetch w p).data.Result.SyncInfo.LatestBlockHeight,
       Seconds (timeSince w.now (statusFetch w p).data.Result.SyncInfo.LatestBlockTime),
       float64 (netInfoFetch w p).data.Result.NPeers⟩ := rfl

/-- The structs after an iteration are the targets of the two fetches. -/
theorem iteration_structs (interval : Nat) (w : Tick) (p : Poller) :
    (iteration interval w p).1.gaia_status = (statusFetch w p).data ∧
    (iteration interval w p).1.gaia_net_info = (netInfoFetch w p).data := ⟨rfl, rfl⟩

/-- With the node down every request fails at the network. -/
theorem netDown_networkFailure (endpoint : String) : NetworkFailure netDown endpoint :=
  ⟨"dial tcp 127.0.0.1:26657: connect: connection refused", Or.inl rfl⟩

/-! ## Last good value -/

/-- C9: in every state the poll loop can reach, an iteration whose `net_info`
request fails at the network leaves `gaia_net_info` unwritten and the
`peers_count` gauge equal to its value before the iteration, and an iteration
whose `status` request fails at the network leaves the `latest_block_height`
gauge equal to its value before; on the very first iteration both stay 0. -/
theorem network_failure_keeps_gauge (p : Poller) (hp : Reachable p) (interval : Nat)
    (w : Tick) :
    (NetworkFailure w.netInfoNet "net_info" →
      (iteration interval w p).1.gaia_net_info = p.gaia_net_info ∧
      (iteration interval w p).1.gauges.peersCount = p.gauges.peersCount ∧
      (recordMetrics interval [w]).1.gauges.peersCount = 0) ∧
    (NetworkFailure w.statusNet "status" →
      (iteration interval w p).1.gauges.latestBlockHeight = p.gauges.latestBlockHeight ∧
      (recordMetrics interval [w]).1.gauges.latestBlockHeight = 0) := by
  have hinv := reachable_gaugesFollow p hp
  constructor
  · intro h
    have h1 := (getData_networkFailure unmarshalNetInfo w.netInfoNet "net_info"
      p.gaia_net_info h).1
    have h0 := (getData_networkFailure unmarshalNetInfo w.netInfoNet "net_info"
      Poller.init.gaia_net_info h).1
    refine ⟨h1, ?_, ?_⟩
    · rw [iteration_gauges, hinv.2]
      show float64 (netInfoFetch w p).data.Result.NPeers = _
      unfold netInfoFetch
      rw [h1]
    · show (iteration interval w Poller.init).1.gauges.peersCount = 0
      rw [iteration_gauges]
      show float64 (netInfoFetch w Poller.init).data.Result.NPeers = 0
      unfold netInfoFetch
      rw [h0]
      decide
  · intro h
    have h1 := (getData_networkFailure unmarshalStatus w.statusNet "status"
      p.gaia_status h).1
    have h0 := (getData_networkFailure unmarshalStatus w.statusNet "status"
      Poller.init.gaia_status h).1
    constructor
    · rw [iteration_gauges, hinv.1]
      show float64 (statusFetch w p).data.Result.SyncInfo.LatestBlockHeight = _
      unfold statusFetch
      rw [h1]
    · show (iteration interval w Poller.init).1.gauges.latestBlockHeight = 0
      rw [iteration_gauges]
      show float64 (statusFetch w Poller.init).data.Result.SyncInfo.LatestBlockHeight = 0
      unfold statusFetch
      rw [h0]
      decide

/-- C9 on the first iteration, with the node down. -/
theorem network_failure_keeps_gauge_witness :
    Reachable Poller.init ∧
    ((NetworkFailure (tickDown sampleNow).netInfoNet "net_info" →
      (iteration 1000 (tickDown sampleNow) Poller.init).1.gaia_net_info =
        Poller.init.gaia_net_info ∧
      (iteration 1000 (tickDown sampleNow) Poller.init).1.gauges.peersCount =
        Poller.init.gauges.peersCount ∧
      (recordMetrics 1000 [tickDown sampleNow]).1.gauges.peersCount = 0) ∧
    (NetworkFailure (tickDown sampleNow).statusNet "status" →
      (iteration 1000 (tickDown sampleNow) Poller.init).1.gauges.latestBlockHeight =
        Poller.init.gauges.latestBlockHeight ∧
      (recordMetrics 1000 [tickDown sampleNow]).1.gauges.latestBlockHeight = 0)) :=
  ⟨reachable_init, network_failure_keeps_gauge Poller.init reachable_init 1000
    (tickDown sampleNow)⟩

set_option maxRecDepth 100000 in
/-- C1, refuted twice.  First: after one good iteration (block five seconds old)
the node goes down; one second later the `status` request is refused and the
`latest_block_age` gauge moves from 5 to 6.  Second: on the first iteration a
`status` body with a member of the wrong type makes `getData` return a decode
error after the height was stored, and the `latest_block_height` gauge moves
from 0 to 7. -/
theorem status_failure_changes_gauges :
    ((statusFetch (tickDown (sampleNow + Second))
        (recordMetrics 1000
          [tickServing (statusBody 123 (sampleNow - 5 * Second)) (netInfoBody 5) sampleNow]).1).err =
        some "dial tcp 127.0.0.1:26657: connect: connection refused" ∧
      (recordMetrics 1000
          [tickServing (statusBody 123 (sampleNow - 5 * Second)) (netInfoBody 5) sampleNow]).1.gauges.latestBlockAge = 5 ∧
      (recordMetrics 1000
          [tickServing (statusBody 123 (sampleNow - 5 * Second)) (netInfoBody 5) sampleNow,
           tickDown (sampleNow + Second)]).1.gauges.latestBlockAge = 6) ∧
    ((statusFetch (tickServing mistypedBody (netInfoBody 5) sampleNow) Poller.init).err =
        some "json: cannot unmarshal string into Go struct field GaiadStatus.id of type int" ∧
      Poller.init.gauges.latestBlockHeight = 0 ∧
      (recordMetrics 1000
          [tickServing mistypedBody (netInfoBody 5) sampleNow]).1.gauges.latestBlockHeight = 7) := by
  refine ⟨⟨by decide, by decide, by decide⟩, by decide, by decide, by decide⟩

/-- C1 as amended: in every state the poll loop can reach, an iteration whose
`status` request fails at the network or returns a body that is not valid JSON
makes `getData` return an error, leaves the `latest_block_height` gauge equal to
its value before the iteration, and sets the `latest_block_age` gauge to the
time from the retained `latest_block_time` to the new clock reading, in
seconds. -/
theorem status_noWrite_gauges (p : Poller) (hp : Reachable p) (interval : Nat) (w : Tick)
    (h : NoWrite w.statusNet "status") :
    (statusFetch w p).err ≠ none ∧
    (iteration interval w p).1.gauges.latestBlockHeight = p.gauges.latestBlockHeight ∧
    (iteration interval w p).1.gauges.latestBlockAge =
      Seconds (timeSince w.now p.gaia_status.Result.SyncInfo.LatestBlockTime) := by
  have hinv := reachable_gaugesFollow p hp
  obtain ⟨h1, h2⟩ := getData_status_noWrite w.statusNet p.gaia_status h
  have hd : (statusFetch w p).data = p.gaia_status := h1
  refine ⟨h2, ?_, ?_⟩
  · rw [iteration_gauges, hinv.1, hd]
  · rw [iteration_gauges, hd]

/-- C1 as amended, on the first iteration with the node down. -/
theorem status_noWrite_gauges_witness :
    Reachable Poller.init ∧ NoWrite (tickDown sampleNow).statusNet "status" ∧
    ((statusFetch (tickDown sampleNow) Poller.init).err ≠ none ∧
    (iteration 1000 (tickDown sampleNow) Poller.init).1.gauges.latestBlockHeight =
      Poller.init.gauges.latestBlockHeight ∧
    (iteration 1000 (tickDown sampleNow) Poller.init).1.gauges.latestBlockAge =
      Seconds (timeSince (tickDown sampleNow).now
        Poller.init.gaia_status.Result.SyncInfo.LatestBlockTime)) :=
  ⟨reachable_init, Or.inl (netDown_networkFailure "status"),
    status_noWrite_gauges Poller.init reachable_init 1000 (tickDown sampleNow)
      (Or.inl (netDown_networkFailure "status"))⟩

/-- The events of an iteration: the two fetches with their error logs, then the
three `Set`s with their debug lines, then the sleep. -/
theorem iteration_events (interval : Nat) (w : Tick) (p : Poller) :
    (iteration interval w p).2 =
      (statusFetch w p).events ++ logIfError (statusFetch w p).err ++
      (netInfoFetch w p).events ++ logIfError (netInfoFetch w p).err ++
      [Event.setLatestBlockHeight
         (float64 (statusFetch w p).data.Result.SyncInfo.LatestBlockHeight),
       Event.logDebug "latest_block_height"
         (float64 (statusFetch w p).data.Result.SyncInfo.LatestBlockHeight),
       Event.setLatestBlockAge
         (Seconds (timeSince w.now (statusFetch w p).data.Result.SyncInfo.LatestBlockTime)),
       Event.logDebug "latest_block_age"
         (Seconds (timeSince w.now (statusFetch w p).data.Result.SyncInfo.LatestBlockTime)),
       Event.setPeersCount (float64 (netInfoFetch w p).data.Result.NPeers),
       Event.logDebug "peer_count" (float64 (netInfoFetch w p).data.Result.NPeers),
       Event.sleep (sleepDuration interval)] := by
  simp only [iteration, statusFetch, netInfoFetch]

/-- A filter that rejects requests, body closings and error logs only sees the
last seven events of an iteration. -/
theorem iteration_filter (interval : Nat) (w : Tick) (p : Poller) (f : Event → Bool)
    (h1 : ∀ url, f (Event.httpGet url) = false) (h2 : f Event.closeBody = false)
    (h3 : ∀ e, f (Event.logError e) = false) :
    (iteration interval w p).2.filter f =
      [Event.setLatestBlockHeight
         (float64 (statusFetch w p).data.Result.SyncInfo.LatestBlockHeight),
       Event.logDebug "latest_block_height"
         (float64 (statusFetch w p).data.Result.SyncInfo.LatestBlockHeight),
       Event.setLatestBlockAge
         (Seconds (timeSince w.now (statusFetch w p).data.Result.SyncInfo.LatestBlockTime)),
       Event.logDebug "latest_block_age"
         (Seconds (timeSince w.now (statusFetch w p).data.Result.SyncInfo.LatestBlockTime)),
       Event.setPeersCount (float64 (netInfoFetch w p).data.Result.NPeers),
       Event.logDebug "peer_count" (float64 (netInfoFetch w p).data.Result.NPeers),
       Event.sleep (sleepDuration interval)].filter f := by
  have e1 : (statusFetch w p).events.filter f = [] :=
    getData_events_filter unmarshalStatus w.statusNet "status" p.gaia_status f h1 h2
  have e2 : (netInfoFetch w p).events.filter f = [] :=
    getData_events_filter unmarshalNetInfo w.netInfoNet "net_info" p.gaia_net_info f h1 h2
  rw [iteration_events]
  simp only [List.filter_append]
  rw [e1, e2, logIfError_filter _ _ h3, logIfError_filter _ _ h3]
  simp only [List.nil_append]

/-- Every iteration performs exactly one `Set` on each gauge, with the value the
gauge holds afterwards. -/
theorem iteration_sets (interval : Nat) (w : Tick) (p : Poller) :
    (iteration interval w p).2.filter Event.isSetLatestBlockHeight =
      [Event.setLatestBlockHeight (iteration interval w p).1.gauges.latestBlockHeight] ∧
    (iteration interval w p).2.filter Event.isSetLatestBlockAge =
      [Event.setLatestBlockAge (iteration interval w p).1.gauges.latestBlockAge] ∧
    (iteration interval w p).2.filter Event.isSetPeersCount =
      [Event.setPeersCount (iteration interval w p).1.gauges.peersCount] := by
  rw [iteration_gauges]
  refine ⟨?_, ?_, ?_⟩
  · rw [iteration_filter interval w p _ (fun _ => rfl) rfl (fun _ => rfl)]
    simp [List.filter, Event.isSetLatestBlockHeight]
  · rw [iteration_filter interval w p _ (fun _ => rfl) rfl (fun _ => rfl)]
    simp [List.filter, Event.isSetLatestBlockAge]
  · rw [iteration_filter interval w p _ (fun _ => rfl) rfl (fun _ => rfl)]
    simp [List.filter, Event.isSetPeersCount]

/-! ## Unset until the first success -/

set_option maxRecDepth 100000 in
/-- C2, refuted on the very first iteration with the node down: both fetches
fail, and still `Set` is called on `latest_block_height` (with 0), on
`latest_block_age` (with the longest duration in seconds, about 292 years) and on
`peers_count` (with 0); the age gauge no longer holds its initial value. -/
theorem first_cycle_failure_sets_gauges :
    (statusFetch (tickDown sampleNow) Poller.init).err =
      some "dial tcp 127.0.0.1:26657: connect: connection refused" ∧
    (netInfoFetch (tickDown sampleNow) Poller.init).err =
      some "dial tcp 127.0.0.1:26657: connect: connection refused" ∧
    Event.setLatestBlockHeight 0 ∈ (recordMetrics 1000 [tickDown sampleNow]).2 ∧
    Event.setLatestBlockAge (mkRat 4835703278458517 524288) ∈
      (recordMetrics 1000 [tickDown sampleNow]).2 ∧
    Event.setPeersCount 0 ∈ (recordMetrics 1000 [tickDown sampleNow]).2 ∧
    Poller.init.gauges.latestBlockAge = 0 ∧
    (recordMetrics 1000 [tickDown sampleNow]).1.gauges.latestBlockAge =
      mkRat 4835703278458517 524288 := by
  refine ⟨by decide, by decide, by decide, by decide, by decide, by decide, by decide⟩

/-- C2 as amended.  First: while no `status` fetch has written the struct since
the process started (every one failed at the network or on invalid JSON), an
iteration whose `status` fetch fails in the same way still performs exactly one
`Set` on `latest_block_height`, with 0, and exactly one on `latest_block_age`,
with the time since Go's zero time in seconds.  Second, whatever the `status`
fetches did: an iteration whose `net_info` fetch fails at the network or on
invalid JSON performs exactly one `Set` on `peers_count`, with the value the
gauge already holds. -/
theorem failed_fetch_still_sets (interval : Nat) (ws : List Tick) (w : Tick) :
    ((∀ t ∈ ws, NoWrite t.statusNet "status") → NoWrite w.statusNet "status" →
      (iteration interval w (recordMetrics interval ws).1).2.filter
          Event.isSetLatestBlockHeight = [Event.setLatestBlockHeight 0] ∧
      (iteration interval w (recordMetrics interval ws).1).2.filter
          Event.isSetLatestBlockAge =
        [Event.setLatestBlockAge (Seconds (timeSince w.now 0))]) ∧
    (NoWrite w.netInfoNet "net_info" →
      (iteration interval w (recordMetrics interval ws).1).2.filter Event.isSetPeersCount =
        [Event.setPeersCount (recordMetrics interval ws).1.gauges.peersCount]) := by
  obtain ⟨h1, h2, h3⟩ := iteration_sets interval w (recordMetrics interval ws).1
  constructor
  · intro hws hw
    have hs : (recordMetrics interval ws).1.gaia_status = GaiadStatus.zero :=
      runLoop_status_noWrite interval ws Poller.init hws
    have hd : (statusFetch w (recordMetrics interval ws).1).data = GaiadStatus.zero := by
      rw [← hs]
      exact (getData_status_noWrite w.statusNet _ hw).1
    rw [h1, h2, iteration_gauges, hd]
    simp only [GaiadStatus.zero]
    refine ⟨?_, trivial⟩
    have h0 : float64 ((0 : Nat) : Int) = 0 := by decide
    rw [h0]
  · intro hn
    have hinv := reachable_gaugesFollow _ (reachable_recordMetrics interval ws)
    have hn1 : (netInfoFetch w (recordMetrics interval ws).1).data =
        (recordMetrics interval ws).1.gaia_net_info :=
      (getData_netInfo_noWrite w.netInfoNet _ hn).1
    rw [h3, iteration_gauges, hn1, hinv.2]

set_option maxRecDepth 100000 in
/-- C2 as amended, twice: on the second iteration of a run with the node down
throughout, and on an iteration that follows a good one (5 peers stored) in which
`status` is served with height 124 and the `net_info` request is refused. -/
theorem failed_fetch_still_sets_witness :
    ((∀ t ∈ [tickDown sampleNow], NoWrite t.statusNet "status") ∧
      NoWrite (tickDown (sampleNow + Second)).statusNet "status" ∧
      NoWrite (tickDown (sampleNow + Second)).netInfoNet "net_info" ∧
      (iteration 1000 (tickDown (sampleNow + Second))
          (recordMetrics 1000 [tickDown sampleNow]).1).2.filter Event.isSetLatestBlockHeight =
        [Event.setLatestBlockHeight 0] ∧
      (iteration 1000 (tickDown (sampleNow + Second))
          (recordMetrics 1000 [tickDown sampleNow]).1).2.filter Event.isSetLatestBlockAge =
        [Event.setLatestBlockAge (Seconds (timeSince (tickDown (sampleNow + Second)).now 0))] ∧
      (iteration 1000 (tickDown (sampleNow + Second))
          (recordMetrics 1000 [tickDown sampleNow]).1).2.filter Event.isSetPeersCount =
        [Event.setPeersCount (recordMetrics 1000 [tickDown sampleNow]).1.gauges.peersCount]) ∧
    ((statusFetch ⟨netServing (statusBody 124 sampleNow), netDown, sampleNow + Second⟩
        (recordMetrics 1000
          [tickServing (statusBody 123 (sampleNow - 5 * Second)) (netInfoBody 5)
            sampleNow]).1).err = none ∧
      NoWrite (⟨netServing (statusBody 124 sampleNow), netDown, sampleNow + Second⟩ :
        Tick).netInfoNet "net_info" ∧
      (recordMetrics 1000
        [tickServing (statusBody 123 (sampleNow - 5 * Second)) (netInfoBody 5)
          sampleNow]).1.gauges.peersCount = 5 ∧
      (iteration 1000 ⟨netServing (statusBody 124 sampleNow), netDown, sampleNow + Second⟩
          (recordMetrics 1000
            [tickServing (statusBody 123 (sampleNow - 5 * Second)) (netInfoBody 5)
              sampleNow]).1).2.filter Event.isSetPeersCount =
        [Event.setPeersCount
          (recordMetrics 1000
            [tickServing (statusBody 123 (sampleNow - 5 * Second)) (netInfoBody 5)
              sampleNow]).1.gauges.peersCount]) :=
  ⟨⟨fun t ht => by
        rw [List.mem_singleton] at ht
        rw [ht]
        exact Or.inl (netDown_networkFailure "status"),
      Or.inl (netDown_networkFailure "status"),
      Or.inl (netDown_networkFailure "net_info"),
      ((failed_fetch_still_sets 1000 [tickDown sampleNow] (tickDown (sampleNow + Second))).1
        (fun t ht => by
          rw [List.mem_singleton] at ht
          rw [ht]
          exact Or.inl (netDown_networkFailure "status"))
        (Or.inl (netDown_networkFailure "status"))).1,
      ((failed_fetch_still_sets 1000 [tickDown sampleNow] (tickDown (sampleNow + Second))).1
        (fun t ht => by
          rw [List.mem_singleton] at ht
          rw [ht]
          exact Or.inl (netDown_networkFailure "status"))
        (Or.inl (netDown_networkFailure "status"))).2,
      (failed_fetch_still_sets 1000 [tickDown sampleNow] (tickDown (sampleNow + Second))).2
        (Or.inl (netDown_networkFailure "net_info"))⟩,
    ⟨by decide,
      Or.inl (netDown_networkFailure "net_info"),
      by decide,
      (failed_fetch_still_sets 1000
        [tickServing (statusBody 123 (sampleNow - 5 * Second)) (netInfoBody 5) sampleNow]
        ⟨netServing (statusBody 124 sampleNow), netDown, sampleNow + Second⟩).2
        (Or.inl (netDown_networkFailure "net_info"))⟩⟩


/-! ## Extraction on success -/

/-- When the body arrives, `getData` returns what `json.Unmarshal` returns and
the target is what `json.Unmarshal` made of it. -/
theorem getData_response {T : Type} (unmarshal : Body → T → T × Option Error) (net : Net)
    (endpoint : String) (data : T) (body : Body)
    (h : net (requestURL endpoint) = HttpResult.response (Except.ok body)) :
    (getData unmarshal net endpoint data).err = (unmarshal body data).2 ∧
    (getData unmarshal net endpoint data).data = (unmarshal body data).1 := by
  cases hu : unmarshal body data with
  | mk d1 oe =>
    cases oe with
    | none => simp [getData, h, hu]
    | some e => simp [getData, h, hu]

/-- A number below `2^64` is stored into a `uint` field without error. -/
theorem storeUint_some (n field : Nat) (h : n < 2 ^ 64) :
    storeUint (some n) field = (n, none) := by
  unfold storeUint
  simp only
  rw [if_pos h]

/-- A `status` body that decodes without error and carries the height `h` (below
`2^64`) leaves `h` in the struct and no error. -/
theorem statusFetch_height (w : Tick) (p : Poller) (d : Doc) (h : Nat)
    (hbody : w.statusNet (requestURL "status") =
      HttpResult.response (Except.ok (Body.doc d none)))
    (hd : d.latest_block_height = some h) (hlt : h < 2 ^ 64) :
    (statusFetch w p).err = none ∧
    (statusFetch w p).data.Result.SyncInfo.LatestBlockHeight = h := by
  obtain ⟨h1, h2⟩ := getData_response unmarshalStatus w.statusNet "status" p.gaia_status _ hbody
  unfold statusFetch
  rw [h1, h2]
  simp only [unmarshalStatus, hd, storeUint_some h _ hlt, firstError]
  exact ⟨trivial, trivial⟩

/-- A `status` body that carries the block time `t` leaves `t` in the struct. -/
theorem statusFetch_time (w : Tick) (p : Poller) (d : Doc) (mismatch : Option Error) (t : Time)
    (hbody : w.statusNet (requestURL "status") =
      HttpResult.response (Except.ok (Body.doc d mismatch)))
    (hd : d.latest_block_time = some t) :
    (statusFetch w p).data.Result.SyncInfo.LatestBlockTime = t := by
  obtain ⟨_, h2⟩ := getData_response unmarshalStatus w.statusNet "status" p.gaia_status _ hbody
  unfold statusFetch
  rw [h2]
  simp only [unmarshalStatus, hd, Option.getD_some]

/-- A `net_info` body that decodes without error and carries the peer count `n`
(below `2^64`) leaves `n` in the struct and no error. -/
theorem netInfoFetch_peers (w : Tick) (p : Poller) (d : Doc) (n : Nat)
    (hbody : w.netInfoNet (requestURL "net_info") =
      HttpResult.response (Except.ok (Body.doc d none)))
    (hd : d.n_peers = some n) (hlt : n < 2 ^ 64) :
    (netInfoFetch w p).err = none ∧ (netInfoFetch w p).data.Result.NPeers = n := by
  obtain ⟨h1, h2⟩ :=
    getData_response unmarshalNetInfo w.netInfoNet "net_info" p.gaia_net_info _ hbody
  unfold netInfoFetch
  rw [h1, h2]
  simp only [unmarshalNetInfo, hd, storeUint_some n _ hlt, firstError]
  exact ⟨trivial, trivial⟩

/-- C3, refuted at the height `2^53 + 1 = 9007199254740993`: the `status` fetch
succeeds with that height, the node is serving `net_info` as well, and the
`latest_block_height` gauge reads 9007199254740992. -/
theorem height_gauge_rounds :
    (statusFetch (tickServing (statusBody 9007199254740993 sampleNow) (netInfoBody 5) sampleNow)
      Poller.init).err = none ∧
    (statusFetch (tickServing (statusBody 9007199254740993 sampleNow) (netInfoBody 5) sampleNow)
      Poller.init).data.Result.SyncInfo.LatestBlockHeight = 9007199254740993 ∧
    (recordMetrics 1000
      [tickServing (statusBody 9007199254740993 sampleNow) (netInfoBody 5)
        sampleNow]).1.gauges.latestBlockHeight = 9007199254740992 ∧
    (recordMetrics 1000
      [tickServing (statusBody 9007199254740993 sampleNow) (netInfoBody 5)
        sampleNow]).1.gauges.latestBlockHeight ≠ 9007199254740993 := by
  refine ⟨by decide, by decide, by decide, by decide⟩

/-- C3 as amended: an iteration whose `status` fetch succeeds with a response
that carries the height `h` (a `uint`, so below `2^64`) leaves the
`latest_block_height` gauge reading `float64(h)`, which is exactly `h` for every
`h ≤ 2^53`; nothing is assumed about the `net_info` fetch of the iteration. -/
theorem height_gauge_value (interval : Nat) (w : Tick) (p : Poller) (d : Doc) (h : Nat)
    (hbody : w.statusNet (requestURL "status") =
      HttpResult.response (Except.ok (Body.doc d none)))
    (hd : d.latest_block_height = some h) (hlt : h < 2 ^ 64) :
    (statusFetch w p).err = none ∧
    (iteration interval w p).1.gauges.latestBlockHeight = float64 h ∧
    (h ≤ 2 ^ 53 → (iteration interval w p).1.gauges.latestBlockHeight = h) := by
  obtain ⟨h1, h2⟩ := statusFetch_height w p d h hbody hd hlt
  have hg : (iteration interval w p).1.gauges.latestBlockHeight = float64 h := by
    rw [iteration_gauges, h2]
  exact ⟨h1, hg, fun hle => by rw [hg, float64_exact h hle]⟩

/-- C3 as amended at the height 123 of the specification, once with `net_info`
served in the same iteration. -/
theorem height_gauge_value_witness :
    (tickServing (statusBody 123 sampleNow) (netInfoBody 5) sampleNow).statusNet
        (requestURL "status") =
      HttpResult.response (Except.ok (Body.doc ⟨some 123, some sampleNow, none⟩ none)) ∧
    (⟨some 123, some sampleNow, none⟩ : Doc).latest_block_height = some 123 ∧
    123 < 2 ^ 64 ∧
    ((statusFetch (tickServing (statusBody 123 sampleNow) (netInfoBody 5) sampleNow)
        Poller.init).err = none ∧
    (iteration 1000 (tickServing (statusBody 123 sampleNow) (netInfoBody 5) sampleNow)
        Poller.init).1.gauges.latestBlockHeight = float64 (123 : Nat) ∧
    (123 ≤ 2 ^ 53 →
      (iteration 1000 (tickServing (statusBody 123 sampleNow) (netInfoBody 5) sampleNow)
        Poller.init).1.gauges.latestBlockHeight = (123 : Nat))) :=
  ⟨rfl, rfl, by norm_num,
    height_gauge_value 1000 (tickServing (statusBody 123 sampleNow) (netInfoBody 5) sampleNow)
      Poller.init ⟨some 123, some sampleNow, none⟩ 123 rfl rfl (by norm_num)⟩

/-- C5, refuted at the peer count `2^64 - 1 = 18446744073709551615`: the
`net_info` fetch succeeds with that count after a refused `status` request, and
the `peers_count` gauge reads 18446744073709551616. -/
theorem peers_gauge_rounds :
    (netInfoFetch ⟨netDown, netServing (netInfoBody 18446744073709551615), sampleNow⟩
      Poller.init).err = none ∧
    (netInfoFetch ⟨netDown, netServing (netInfoBody 18446744073709551615), sampleNow⟩
      Poller.init).data.Result.NPeers = 18446744073709551615 ∧
    (recordMetrics 1000
      [⟨netDown, netServing (netInfoBody 18446744073709551615),
        sampleNow⟩]).1.gauges.peersCount = 18446744073709551616 ∧
    (recordMetrics 1000
      [⟨netDown, netServing (netInfoBody 18446744073709551615),
        sampleNow⟩]).1.gauges.peersCount ≠ 18446744073709551615 := by
  refine ⟨by decide, by decide, by decide, by decide⟩

/-- C5 as amended: every iteration issues the `net_info` request, whatever the
`status` fetch did; when the `net_info` fetch succeeds with a response that
carries the peer count `n` (a `uint`, so below `2^64`) the `peers_count` gauge
reads `float64(n)` afterwards, which is exactly `n` for every `n ≤ 2^53`. -/
theorem peers_gauge_value (interval : Nat) (w : Tick) (p : Poller) (d : Doc) (n : Nat)
    (hbody : w.netInfoNet (requestURL "net_info") =
      HttpResult.response (Except.ok (Body.doc d none)))
    (hd : d.n_peers = some n) (hlt : n < 2 ^ 64) :
    Event.httpGet (GAIA_API_HOST ++ "/" ++ "net_info") ∈ (iteration interval w p).2 ∧
    (netInfoFetch w p).err = none ∧
    (iteration interval w p).1.gauges.peersCount = float64 n ∧
    (n ≤ 2 ^ 53 → (iteration interval w p).1.gauges.peersCount = n) := by
  obtain ⟨h1, h2⟩ := netInfoFetch_peers w p d n hbody hd hlt
  have hg : (iteration interval w p).1.gauges.peersCount = float64 n := by
    rw [iteration_gauges, h2]
  refine ⟨?_, h1, hg, fun hle => by rw [hg, float64_exact n hle]⟩
  rw [iteration_events]
  have hm : Event.httpGet (requestURL "net_info") ∈ (netInfoFetch w p).events :=
    getData_httpGet_mem unmarshalNetInfo w.netInfoNet "net_info" p.gaia_net_info
  have hurl : requestURL "net_info" = GAIA_API_HOST ++ "/" ++ "net_info" := rfl
  rw [hurl] at hm
  simp only [List.mem_append]
  exact Or.inl (Or.inl (Or.inr hm))

/-- C5 as amended at the peer count 5 of the specification, after a refused
`status` request. -/
theorem peers_gauge_value_witness :
    (⟨netDown, netServing (netInfoBody 5), sampleNow⟩ : Tick).netInfoNet
        (requestURL "net_info") =
      HttpResult.response (Except.ok (Body.doc ⟨none, none, some 5⟩ none)) ∧
    (⟨none, none, some 5⟩ : Doc).n_peers = some 5 ∧
    5 < 2 ^ 64 ∧
    (Event.httpGet (GAIA_API_HOST ++ "/" ++ "net_info") ∈
      (iteration 1000 ⟨netDown, netServing (netInfoBody 5), sampleNow⟩ Poller.init).2 ∧
    (netInfoFetch ⟨netDown, netServing (netInfoBody 5), sampleNow⟩ Poller.init).err = none ∧
    (iteration 1000 ⟨netDown, netServing (netInfoBody 5), sampleNow⟩
      Poller.init).1.gauges.peersCount = float64 (5 : Nat) ∧
    (5 ≤ 2 ^ 53 →
      (iteration 1000 ⟨netDown, netServing (netInfoBody 5), sampleNow⟩
        Poller.init).1.gauges.peersCount = (5 : Nat))) :=
  ⟨rfl, rfl, by norm_num,
    peers_gauge_value 1000 ⟨netDown, netServing (netInfoBody 5), sampleNow⟩
      Poller.init ⟨none, none, some 5⟩ 5 rfl rfl (by norm_num)⟩


/-! ## Block age -/

/-- `time.Since` of a later instant is negative. -/
theorem timeSince_neg (now t : Time) (h : now < t) : timeSince now t < 0 := by
  unfold timeSince timeSub maxDuration minDuration Time Duration at *
  split
  · omega
  · split <;> omega

/-- `time.Since` is the plain difference while it fits a `Duration`. -/
theorem timeSince_exact (now t : Time) (hlo : minDuration ≤ now - t)
    (hhi : now - t ≤ maxDuration) : timeSince now t = now - t := by
  unfold timeSince timeSub
  rw [if_neg (not_lt.mpr hhi), if_neg (not_lt.mpr hlo)]

set_option maxRecDepth 100000 in
/-- C4, refuted at the block time `0001-01-01T00:00:00Z` (Go's zero time) read on
2026-11-04: the `status` fetch succeeds, the block is 63929347200 seconds old, and
the `latest_block_age` gauge reads the longest duration, 9223372036.85 seconds; a
block time one second later gives the same reading. -/
theorem block_age_saturates :
    (statusFetch (tickServing (statusBody 1 0) (netInfoBody 5) sampleNow) Poller.init).err =
      none ∧
    (statusFetch (tickServing (statusBody 1 0) (netInfoBody 5) sampleNow)
      Poller.init).data.Result.SyncInfo.LatestBlockTime = 0 ∧
    sampleNow - 0 = 63929347200 * Second ∧
    (recordMetrics 1000
      [tickServing (statusBody 1 0) (netInfoBody 5) sampleNow]).1.gauges.latestBlockAge =
      mkRat 4835703278458517 524288 ∧
    (recordMetrics 1000
      [tickServing (statusBody 1 0) (netInfoBody 5) sampleNow]).1.gauges.latestBlockAge <
      9223372037 ∧
    (recordMetrics 1000
      [tickServing (statusBody 1 0) (netInfoBody 5) sampleNow]).1.gauges.latestBlockAge ≠
      63929347200 ∧
    (recordMetrics 1000
      [tickServing (statusBody 1 Second) (netInfoBody 5) sampleNow]).1.gauges.latestBlockAge =
      (recordMetrics 1000
        [tickServing (statusBody 1 0) (netInfoBody 5) sampleNow]).1.gauges.latestBlockAge := by
  refine ⟨by decide, by decide, by decide, by decide, by decide, by decide, by decide⟩

/-- C4 as amended: an iteration whose `status` fetch succeeds with the block time
`T` sets the `latest_block_age` gauge to `time.Since(T).Seconds()`.  While
`now - T` fits a `time.Duration` that is `now - T` in seconds; the value is not
clamped at zero, it is negative whenever `T` is later than `now`; a difference
above the largest duration reads as the largest duration, one below the
smallest as the smallest. -/
theorem block_age_value (interval : Nat) (w : Tick) (p : Poller) (d : Doc) (T : Time)
    (hbody : w.statusNet (requestURL "status") =
      HttpResult.response (Except.ok (Body.doc d none)))
    (hd : d.latest_block_time = some T) :
    (iteration interval w p).1.gauges.latestBlockAge = Seconds (timeSince w.now T) ∧
    (minDuration ≤ w.now - T → w.now - T ≤ maxDuration →
      (iteration interval w p).1.gauges.latestBlockAge = Seconds (w.now - T)) ∧
    (w.now < T → (iteration interval w p).1.gauges.latestBlockAge < 0) ∧
    (maxDuration < w.now - T →
      (iteration interval w p).1.gauges.latestBlockAge = Seconds maxDuration) ∧
    (w.now - T < minDuration →
      (iteration interval w p).1.gauges.latestBlockAge = Seconds minDuration) := by
  have ht := statusFetch_time w p d none T hbody hd
  have hg : (iteration interval w p).1.gauges.latestBlockAge = Seconds (timeSince w.now T) := by
    rw [iteration_gauges, ht]
  refine ⟨hg, ?_, ?_, ?_, ?_⟩
  · intro hlo hhi
    rw [hg, timeSince_exact w.now T hlo hhi]
  · intro hlt
    rw [hg]
    exact Seconds_neg _ (timeSince_neg w.now T hlt)
  · intro hgt
    rw [hg]
    unfold timeSince timeSub
    rw [if_pos hgt]
  · intro hlt
    rw [hg]
    have hmm : ¬ maxDuration < w.now - T := by
      unfold maxDuration minDuration Time Duration at *
      omega
    unfold timeSince timeSub
    rw [if_neg hmm, if_pos hlt]

/-- C4 as amended, for a block five seconds old. -/
theorem block_age_value_witness :
    (tickServing (statusBody 123 (sampleNow - 5 * Second)) (netInfoBody 5) sampleNow).statusNet
        (requestURL "status") =
      HttpResult.response
        (Except.ok (Body.doc ⟨some 123, some (sampleNow - 5 * Second), none⟩ none)) ∧
    (⟨some 123, some (sampleNow - 5 * Second), none⟩ : Doc).latest_block_time =
      some (sampleNow - 5 * Second) ∧
    ((iteration 1000 (tickServing (statusBody 123 (sampleNow - 5 * Second)) (netInfoBody 5)
        sampleNow) Poller.init).1.gauges.latestBlockAge =
      Seconds (timeSince (tickServing (statusBody 123 (sampleNow - 5 * Second)) (netInfoBody 5)
        sampleNow).now (sampleNow - 5 * Second)) ∧
    (minDuration ≤ (tickServing (statusBody 123 (sampleNow - 5 * Second)) (netInfoBody 5)
        sampleNow).now - (sampleNow - 5 * Second) →
      (tickServing (statusBody 123 (sampleNow - 5 * Second)) (netInfoBody 5)
        sampleNow).now - (sampleNow - 5 * Second) ≤ maxDuration →
      (iteration 1000 (tickServing (statusBody 123 (sampleNow - 5 * Second)) (netInfoBody 5)
        sampleNow) Poller.init).1.gauges.latestBlockAge =
      Seconds ((tickServing (statusBody 123 (sampleNow - 5 * Second)) (netInfoBody 5)
        sampleNow).now - (sampleNow - 5 * Second))) ∧
    ((tickServing (statusBody 123 (sampleNow - 5 * Second)) (netInfoBody 5)
        sampleNow).now < sampleNow - 5 * Second →
      (iteration 1000 (tickServing (statusBody 123 (sampleNow - 5 * Second)) (netInfoBody 5)
        sampleNow) Poller.init).1.gauges.latestBlockAge < 0) ∧
    (maxDuration < (tickServing (statusBody 123 (sampleNow - 5 * Second)) (netInfoBody 5)
        sampleNow).now - (sampleNow - 5 * Second) →
      (iteration 1000 (tickServing (statusBody 123 (sampleNow - 5 * Second)) (netInfoBody 5)
        sampleNow) Poller.init).1.gauges.latestBlockAge = Seconds maxDuration) ∧
    ((tickServing (statusBody 123 (sampleNow - 5 * Second)) (netInfoBody 5)
        sampleNow).now - (sampleNow - 5 * Second) < minDuration →
      (iteration 1000 (tickServing (statusBody 123 (sampleNow - 5 * Second)) (netInfoBody 5)
        sampleNow) Poller.init).1.gauges.latestBlockAge = Seconds minDuration)) :=
  ⟨rfl, rfl,
    block_age_value 1000
      (tickServing (statusBody 123 (sampleNow - 5 * Second)) (netInfoBody 5) sampleNow)
      Poller.init ⟨some 123, some (sampleNow - 5 * Second), none⟩ (sampleNow - 5 * Second)
      rfl rfl⟩

/-! ## What a cycle's gauges depend on -/

set_option maxRecDepth 100000 in
/-- C7, refuted: the same iteration (both fetches succeed, with well-formed
bodies that carry none of the three members) leaves the gauges at
`(0, 9223372036.85, 0)` when it is the first one and at `(123, 6, 5)` when it
follows an iteration that stored height 123, a block time five seconds before
that iteration, and 5 peers. -/
theorem gauges_depend_on_earlier_cycles :
    (statusFetch (tickServing emptyBody emptyBody (sampleNow + Second)) Poller.init).err = none ∧
    (netInfoFetch (tickServing emptyBody emptyBody (sampleNow + Second)) Poller.init).err = none ∧
    (statusFetch (tickServing emptyBody emptyBody (sampleNow + Second))
      (recordMetrics 1000
        [tickServing (statusBody 123 (sampleNow - 5 * Second)) (netInfoBody 5)
          sampleNow]).1).err = none ∧
    (netInfoFetch (tickServing emptyBody emptyBody (sampleNow + Second))
      (recordMetrics 1000
        [tickServing (statusBody 123 (sampleNow - 5 * Second)) (netInfoBody 5)
          sampleNow]).1).err = none ∧
    (recordMetrics 1000 [tickServing emptyBody emptyBody (sampleNow + Second)]).1.gauges =
      ⟨0, mkRat 4835703278458517 524288, 0⟩ ∧
    (recordMetrics 1000
      [tickServing (statusBody 123 (sampleNow - 5 * Second)) (netInfoBody 5) sampleNow,
       tickServing emptyBody emptyBody (sampleNow + Second)]).1.gauges = ⟨123, 6, 5⟩ ∧
    (recordMetrics 1000 [tickServing emptyBody emptyBody (sampleNow + Second)]).1.gauges ≠
      (recordMetrics 1000
        [tickServing (statusBody 123 (sampleNow - 5 * Second)) (netInfoBody 5) sampleNow,
         tickServing emptyBody emptyBody (sampleNow + Second)]).1.gauges := by
  refine ⟨by decide, by decide, by decide, by decide, by decide, by decide, by decide⟩

/-- C7 as amended: the gauges after an iteration are a function of the
iteration's responses, the clock reading and the two structs kept from earlier
iterations (a member that a response omits keeps the field as it was); when both
fetches succeed with responses that carry `latest_block_height`,
`latest_block_time` and `n_peers`, the gauges depend on these responses and the
clock only, whatever the state before. -/
theorem gauges_fresh_when_members_present (interval : Nat) (w : Tick) (p1 p2 : Poller)
    (d1 d2 : Doc) (h : Nat) (t : Time) (n : Nat)
    (hb1 : w.statusNet (requestURL "status") =
      HttpResult.response (Except.ok (Body.doc d1 none)))
    (hb2 : w.netInfoNet (requestURL "net_info") =
      HttpResult.response (Except.ok (Body.doc d2 none)))
    (hh : d1.latest_block_height = some h) (hlt : h < 2 ^ 64)
    (ht : d1.latest_block_time = some t)
    (hn : d2.n_peers = some n) (hnlt : n < 2 ^ 64) :
    (iteration interval w p1).1.gauges =
      ⟨float64 h, Seconds (timeSince w.now t), float64 n⟩ ∧
    (iteration interval w p1).1.gauges = (iteration interval w p2).1.gauges ∧
    (∀ (w2 : Tick) (q1 q2 : Poller), q1.gaia_status = q2.gaia_status →
      q1.gaia_net_info = q2.gaia_net_info →
      (iteration interval w2 q1).1.gauges = (iteration interval w2 q2).1.gauges) := by
  have key : ∀ p : Poller, (iteration interval w p).1.gauges =
      ⟨float64 h, Seconds (timeSince w.now t), float64 n⟩ := by
    intro p
    rw [iteration_gauges, (statusFetch_height w p d1 h hb1 hh hlt).2,
      statusFetch_time w p d1 none t hb1 ht, (netInfoFetch_peers w p d2 n hb2 hn hnlt).2]
  refine ⟨key p1, by rw [key p1, key p2], ?_⟩
  intro w2 q1 q2 hs hi
  rw [iteration_gauges, iteration_gauges]
  unfold statusFetch netInfoFetch
  rw [hs, hi]

/-- C7 as amended, for a full `status` and `net_info` response on the first
iteration and on one that follows a run with the node down. -/
theorem gauges_fresh_when_members_present_witness :
    (tickServing (statusBody 123 (sampleNow - 5 * Second)) (netInfoBody 5) sampleNow).statusNet
        (requestURL "status") =
      HttpResult.response
        (Except.ok (Body.doc ⟨some 123, some (sampleNow - 5 * Second), none⟩ none)) ∧
    (tickServing (statusBody 123 (sampleNow - 5 * Second)) (netInfoBody 5) sampleNow).netInfoNet
        (requestURL "net_info") =
      HttpResult.response (Except.ok (Body.doc ⟨none, none, some 5⟩ none)) ∧
    (⟨some 123, some (sampleNow - 5 * Second), none⟩ : Doc).latest_block_height = some 123 ∧
    123 < 2 ^ 64 ∧
    (⟨some 123, some (sampleNow - 5 * Second), none⟩ : Doc).latest_block_time =
      some (sampleNow - 5 * Second) ∧
    (⟨none, none, some 5⟩ : Doc).n_peers = some 5 ∧
    5 < 2 ^ 64 ∧
    ((iteration 1000 (tickServing (statusBody 123 (sampleNow - 5 * Second)) (netInfoBody 5)
        sampleNow) Poller.init).1.gauges =
      ⟨float64 (123 : Nat),
       Seconds (timeSince (tickServing (statusBody 123 (sampleNow - 5 * Second)) (netInfoBody 5)
        sampleNow).now (sampleNow - 5 * Second)),
       float64 (5 : Nat)⟩ ∧
    (iteration 1000 (tickServing (statusBody 123 (sampleNow - 5 * Second)) (netInfoBody 5)
        sampleNow) Poller.init).1.gauges =
      (iteration 1000 (tickServing (statusBody 123 (sampleNow - 5 * Second)) (netInfoBody 5)
        sampleNow) (recordMetrics 1000 [tickDown sampleNow]).1).1.gauges ∧
    (∀ (w2 : Tick) (q1 q2 : Poller), q1.gaia_status = q2.gaia_status →
      q1.gaia_net_info = q2.gaia_net_info →
      (iteration 1000 w2 q1).1.gauges = (iteration 1000 w2 q2).1.gauges)) :=
  ⟨rfl, rfl, rfl, by norm_num, rfl, rfl, by norm_num,
    gauges_fresh_when_members_present 1000
      (tickServing (statusBody 123 (sampleNow - 5 * Second)) (netInfoBody 5) sampleNow)
      Poller.init (recordMetrics 1000 [tickDown sampleNow]).1
      ⟨some 123, some (sampleNow - 5 * Second), none⟩ ⟨none, none, some 5⟩
      123 (sampleNow - 5 * Second) 5 rfl rfl rfl (by norm_num) rfl rfl (by norm_num)⟩

end GaiaExporter
